import Mathlib

/-!
Verification development for the `void` AUR helper (`src/main.rs`).

The program resolves a package name against the AUR RPC API, clones its
recipe repository, builds it with `makepkg` (retrying once with
`--skippgpcheck` on failure), and falls back to filtered search
suggestions when exact resolution fails.  Removal delegates to
`pacman -Rns`.

The embedding below models the pure decision logic of each function,
with all environment interaction (HTTP responses, home-directory lookup,
the filesystem, subprocess exit results) made explicit as inputs.
-/

namespace VoidHelper

/-- `AurPackage` mirrors the deserialized record: `Name`, `PackageBase`,
optional `Description` (src/main.rs lines 14-22). -/
structure AurPackage where
  name : String
  package_base : String
  description : Option String
deriving DecidableEq, Repr

/-- `AurResponse` mirrors the RPC response wrapper (src/main.rs lines 9-12). -/
structure AurResponse where
  results : List AurPackage
deriving DecidableEq, Repr

/-- Failures of the two `?` operators on a fetch: `reqwest::get(...).await?`
(transport) and `.json::<AurResponse>().await?` (decode). -/
inductive FetchError where
  | network
  | decode
deriving DecidableEq, Repr

/-- Result of `std::process::Command::status()`: either the spawn itself
failed (`Err(io::Error)`, e.g. missing binary) or the child exited and
`status.success()` is the given boolean. -/
inductive CmdResult where
  | launchErr
  | exited (success : Bool)
deriving DecidableEq, Repr

/-- `get_package_info` (src/main.rs lines 44-48): fetch the info RPC
response, propagate transport/decode errors, otherwise return
`response.results.into_iter().next()` — the first record, if any. -/
def get_package_info (resp : Except FetchError AurResponse) :
    Except FetchError (Option AurPackage) :=
  resp.map (fun r => r.results.head?)

/-- ASCII lower-casing of one character, the fragment of Rust's
`char::to_lowercase` relevant to package names. -/
def lower_char (c : Char) : Char :=
  if 65 ≤ c.toNat ∧ c.toNat ≤ 90 then Char.ofNat (c.toNat + 32) else c

/-- Rust `str::to_lowercase`, modelled on the ASCII range. -/
def to_lower (s : String) : String :=
  ⟨s.data.map lower_char⟩

/-- Rust `str::starts_with`: `starts_with s pre` holds when `pre` is a
leading fragment of `s`. -/
def starts_with (s pre : String) : Bool :=
  List.isPrefixOf pre.data s.data

/-- Rust `str::split(sep)` on a character list: split at every occurrence
of `sep`, keeping empty fragments (`"a--b"` gives `["a", "", "b"]`, and
the empty string gives `[""]`). -/
def split_char_list (sep : Char) : List Char → List (List Char)
  | [] => [[]]
  | c :: cs =>
    if c = sep then [] :: split_char_list sep cs
    else
      match split_char_list sep cs with
      | [] => [[c]]
      | t :: ts => (c :: t) :: ts

/-- Rust `str::split(sep)` for a character separator. -/
def split_char (sep : Char) (s : String) : List String :=
  (split_char_list sep s.data).map (fun l => ⟨l⟩)

/-- Splitting at every character satisfying a predicate, keeping empty
fragments — Rust `str::split` with a `char` predicate pattern. -/
def split_pred_list (p : Char → Bool) : List Char → List (List Char)
  | [] => [[]]
  | c :: cs =>
    if p c then [] :: split_pred_list p cs
    else
      match split_pred_list p cs with
      | [] => [[c]]
      | t :: ts => (c :: t) :: ts

/-- Predicate splitting lifted to strings. -/
def split_pred (p : Char → Bool) (s : String) : List String :=
  (split_pred_list p s.data).map (fun l => ⟨l⟩)

/-- The filter predicate of `search_packages` (src/main.rs lines 55-61):
keep a candidate when its lower-cased name starts with the lower-cased
query, or the query is one of the fragments obtained by splitting the
name on `'-'`, or one of the fragments obtained by splitting on `'_'`. -/
def keep_candidate (query : String) (pkg : AurPackage) : Bool :=
  let name := to_lower pkg.name
  let q := to_lower query
  starts_with name q ||
  (split_char '-' name).any (fun part => part == q) ||
  (split_char '_' name).any (fun part => part == q)

/-- `search_packages` (src/main.rs lines 50-65): fetch the search RPC
response and filter it with `keep_candidate`. -/
def search_packages (query : String) (resp : AurResponse) : List AurPackage :=
  resp.results.filter (keep_candidate query)

/-- Modelled from the spec (section 4.2), for comparison with
`keep_candidate`: a candidate is kept iff its lower-cased name equals the
lower-cased query, starts with the query, or contains the query as a
token delimited by non-alphanumeric boundaries. -/
def spec_keep_candidate (query : String) (pkg : AurPackage) : Bool :=
  let name := to_lower pkg.name
  let q := to_lower query
  name == q ||
  starts_with name q ||
  (split_pred (fun c => !c.isAlphanum) name).any (fun part => part == q)

/-- The cap of `suggest_similar_packages`: `packages.iter().take(5)`
(src/main.rs line 172). -/
def suggestion_cap : Nat := 5

/-- The sequence of packages actually displayed by
`suggest_similar_packages` (src/main.rs lines 172-177). -/
def suggest_display (pkgs : List AurPackage) : List AurPackage :=
  pkgs.take suggestion_cap

/-- The numbered suggestion lines printed for the displayed packages
(src/main.rs lines 173-176). -/
def suggestion_lines (pkgs : List AurPackage) : List String :=
  (suggest_display pkgs).enum.map (fun x =>
    toString (x.1 + 1) ++ ". " ++ x.2.name ++ " - " ++
      (x.2.description.getD "No description"))

/-- A filesystem path, as a list of components (e.g.
`[home, "aur-builds", base]` for `home_dir().join("aur-builds").join(base)`). -/
abbrev Path := List String

/-- The filesystem, modelled as the list of existing paths (membership
semantics). -/
abbrev FS := List Path

/-- `PathBuf::exists` for a path in the modelled filesystem. -/
def path_exists (fs : FS) (p : Path) : Bool :=
  fs.contains p

/-- `p` names an entry strictly inside directory `dir`. -/
def strictly_under (dir p : Path) : Bool :=
  List.isPrefixOf dir p && decide (dir.length < p.length)

/-- `fs::remove_dir_all(dir)`: drop `dir` itself and everything under it. -/
def remove_dir_all (fs : FS) (dir : Path) : FS :=
  fs.filter (fun p => !(List.isPrefixOf dir p))

/-- `fs::create_dir_all(dir)`: create `dir` together with all missing
ancestor components. -/
def create_dir_all (fs : FS) (dir : Path) : FS :=
  dir.inits ++ fs

/-- The entries strictly inside `dir` that exist in `fs`. -/
def dir_contents (fs : FS) (dir : Path) : List Path :=
  fs.filter (fun p => strictly_under dir p)

/-- A filesystem is well formed when every existing path's ancestors also
exist (real filesystems cannot hold a file under a missing directory). -/
def fs_wf (fs : FS) : Bool :=
  fs.all (fun p =>
    (List.range p.length).all (fun n => n == 0 || fs.contains (p.take n)))

/-- The build directory of `install_package` (src/main.rs lines 72-75):
`home_dir().unwrap().join("aur-builds").join(&pkg.package_base)`. -/
def build_dir (home : String) (package_base : String) : Path :=
  [home, "aur-builds", package_base]

/-- Workspace preparation (src/main.rs lines 77-82): if the build
directory exists, report and remove it recursively; then create it.
Returns the new filesystem and the lines printed. -/
def prepare_workspace (fs : FS) (home : String) (package_base : String) :
    FS × List String :=
  let dir := build_dir home package_base
  if path_exists fs dir then
    (create_dir_all (remove_dir_all fs dir) dir,
     ["Removing existing directory: " ++ String.intercalate "/" dir])
  else
    (create_dir_all fs dir, [])

/-- Which `makepkg` invocations a build job performed. -/
inductive BuildCmd where
  | primaryBuild
  | relaxedBuild
deriving DecidableEq, Repr

/-- Outcome of the clone-succeeded build phase (src/main.rs lines
99-130): clean success, success only under `--skippgpcheck`, failure of
both attempts, or a spawn error of the relaxed attempt propagated by `?`. -/
inductive BuildOutcome where
  | cleanSuccess
  | relaxedSuccess
  | relaxedFailure
  | invocationError
deriving DecidableEq, Repr

/-- The build phase of `install_package` (src/main.rs lines 99-130):
`match makepkg { Ok(status) if status.success() => .. , _ => retry }`.
The primary attempt's spawn error and non-zero exit both fall into the
retry arm; the relaxed attempt's spawn error is propagated by `?`.
Returns the outcome and the list of `makepkg` invocations performed. -/
def run_build (primary relaxed : CmdResult) : BuildOutcome × List BuildCmd :=
  match primary with
  | .exited true => (.cleanSuccess, [.primaryBuild])
  | _ =>
    match relaxed with
    | .launchErr => (.invocationError, [.primaryBuild, .relaxedBuild])
    | .exited true => (.relaxedSuccess, [.primaryBuild, .relaxedBuild])
    | .exited false => (.relaxedFailure, [.primaryBuild, .relaxedBuild])

/-- The success report printed for a completed build (src/main.rs lines
108 and 127): the two success messages are distinct so the user can tell
a clean install from one with verification skipped. -/
def success_report (o : BuildOutcome) (pkgName : String) : Option String :=
  match o with
  | .cleanSuccess => some ("Successfully installed: " ++ pkgName)
  | .relaxedSuccess => some ("Successfully installed with PGP check skip: " ++ pkgName)
  | .relaxedFailure => none
  | .invocationError => none

/-- Errors propagated with `?` out of `install_package` / `remove_package`
up to `main`, where the runtime prints them and exits non-zero. -/
inductive RunError where
  | network
  | decode
  | spawn
deriving DecidableEq, Repr

/-- How an invocation ends early: an `Err` value returned to `main`, or a
panic (`unwrap` on `None`). -/
inductive Halt where
  | err (e : RunError)
  | panicked
deriving DecidableEq, Repr

/-- Observable result of an invocation: the lines printed (stdout and
stderr interleaved in program order), the final filesystem, and how it
halted (`none` = returned `Ok(())`). -/
structure InvocationResult where
  msgs : List String
  fs : FS
  halt : Option Halt
deriving DecidableEq, Repr

/-- The environment an `install_package` run draws on: the two RPC
responses, the home directory (if determinable), the filesystem, and the
exit results of `git clone` and the two `makepkg` attempts. -/
structure InstallWorld where
  info : Except FetchError AurResponse
  searchResp : Except FetchError AurResponse
  home : Option String
  fs : FS
  cloneRes : CmdResult
  primaryRes : CmdResult
  relaxedRes : CmdResult
deriving Repr

/-- Lift a `FetchError` into the propagated error taxonomy. -/
def RunError.ofFetch : FetchError → RunError
  | .network => .network
  | .decode => .decode

/-- The four remediation lines printed when the relaxed build also fails
(src/main.rs lines 122-125). -/
def relaxed_failure_report : List String :=
  ["Failed to build and install package",
   "You may need to manually import PGP keys:",
   "Look for any missing key IDs in the error messages above",
   "Then run: gpg --recv-keys <KEY_ID>"]

/-- `suggest_similar_packages` (src/main.rs lines 161-180): search,
propagate fetch errors, then either report no matches or print the
numbered "Did you mean" list (capped at 5). -/
def suggest_similar_packages (query : String) (w : InstallWorld) :
    InvocationResult :=
  match w.searchResp with
  | .error e => ⟨["Searching for similar packages..."], w.fs,
      some (.err (RunError.ofFetch e))⟩
  | .ok resp =>
    let pkgs := search_packages query resp
    if pkgs.isEmpty then
      ⟨["Searching for similar packages...", "No similar packages found."],
        w.fs, none⟩
    else
      ⟨["Searching for similar packages...", "Did you mean:"] ++
        suggestion_lines pkgs, w.fs, none⟩

/-- `install_package` (src/main.rs lines 67-139): resolve the package;
on a hit prepare the workspace (panicking when the home directory is
unknown), clone, and run the build phase; on a miss fall back to
suggestions. -/
def install_package (pkgArg : String) (w : InstallWorld) : InvocationResult :=
  match w.info with
  | .error e => ⟨[], w.fs, some (.err (RunError.ofFetch e))⟩
  | .ok resp =>
    match resp.results.head? with
    | none =>
      let s := suggest_similar_packages pkgArg w
      ⟨("Package not found in AUR: " ++ pkgArg) :: s.msgs, s.fs, s.halt⟩
    | some pkg =>
      let msgs0 := ["Installing: " ++ pkg.name]
      match w.home with
      | none => ⟨msgs0, w.fs, some .panicked⟩
      | some home =>
        let prep := prepare_workspace w.fs home pkg.package_base
        let msgs1 := msgs0 ++ prep.2
        match w.cloneRes with
        | .launchErr => ⟨msgs1, prep.1, some (.err .spawn)⟩
        | .exited false =>
          ⟨msgs1 ++ ["Failed to clone repository"], prep.1, none⟩
        | .exited true =>
          match run_build w.primaryRes w.relaxedRes with
          | (.cleanSuccess, _) =>
            ⟨msgs1 ++ ["Successfully installed: " ++ pkg.name], prep.1, none⟩
          | (.invocationError, _) =>
            ⟨msgs1 ++ ["First attempt failed, trying with PGP check skip..."],
              prep.1, some (.err .spawn)⟩
          | (.relaxedFailure, _) =>
            ⟨msgs1 ++ ["First attempt failed, trying with PGP check skip..."] ++
              relaxed_failure_report, prep.1, none⟩
          | (.relaxedSuccess, _) =>
            ⟨msgs1 ++ ["First attempt failed, trying with PGP check skip...",
              "Successfully installed with PGP check skip: " ++ pkg.name],
              prep.1, none⟩

/-- `remove_package` (src/main.rs lines 141-159): run
`sudo pacman -Rns <package>`; a spawn error propagates with `?`, a
non-zero exit is reported but the function still returns `Ok(())`. -/
def remove_package (pkgName : String) (fs : FS) (res : CmdResult) :
    InvocationResult :=
  let msgs0 := ["Removing package: " ++ pkgName]
  match res with
  | .launchErr => ⟨msgs0, fs, some (.err .spawn)⟩
  | .exited false => ⟨msgs0 ++ ["Failed to remove package"], fs, none⟩
  | .exited true =>
    ⟨msgs0 ++ ["Successfully removed: " ++ pkgName], fs, none⟩

/-- The process exit status as a function of how the invocation halted:
`main` returns the propagated `Err` (exit 1), a Rust panic aborts with
exit 101, and `Ok(())` exits 0. -/
def exit_code (h : Option Halt) : Nat :=
  match h with
  | none => 0
  | some (.err _) => 1
  | some .panicked => 101

/-! ### Helper lemmas -/

theorem path_exists_iff {fs : FS} {p : Path} :
    path_exists fs p = true ↔ p ∈ fs := by
  simp [path_exists, List.contains, List.elem_iff]

theorem strictly_under_eq_true {dir p : Path} :
    strictly_under dir p = true ↔ dir <+: p ∧ dir.length < p.length := by
  simp [strictly_under]

theorem mem_create_dir_all (fs : FS) (dir : Path) :
    dir ∈ create_dir_all fs dir := by
  simp [create_dir_all, List.mem_inits]

theorem dir_contents_create (fs : FS) (dir : Path)
    (h : ∀ p ∈ fs, strictly_under dir p = false) :
    dir_contents (create_dir_all fs dir) dir = [] := by
  simp only [dir_contents, create_dir_all, List.filter_append,
    List.append_eq_nil, List.filter_eq_nil_iff]
  refine ⟨fun a ha => ?_, fun a ha => ?_⟩
  · rw [List.mem_inits] at ha
    intro hsu
    rw [strictly_under_eq_true] at hsu
    have h1 := ha.length_le
    omega
  · exact fun hsu => by simp [h a ha] at hsu

theorem dir_contents_remove_create (fs : FS) (dir : Path) :
    dir_contents (create_dir_all (remove_dir_all fs dir) dir) dir = [] := by
  apply dir_contents_create
  intro p hp
  simp only [remove_dir_all, List.mem_filter, Bool.not_eq_eq_eq_not,
    Bool.not_true] at hp
  simp only [strictly_under, hp.2, Bool.false_and]

theorem no_strictly_under_of_wf (fs : FS) (dir : Path)
    (hwf : fs_wf fs = true) (hndir : dir ∉ fs) (hne : dir ≠ []) :
    ∀ p ∈ fs, strictly_under dir p = false := by
  intro p hp
  by_contra hsu
  rw [Bool.not_eq_false, strictly_under_eq_true] at hsu
  obtain ⟨⟨t, ht⟩, hlen⟩ := hsu
  have htake : p.take dir.length = dir := by
    rw [← ht]; exact List.take_left dir t
  simp only [fs_wf, List.all_eq_true] at hwf
  have h2 := hwf p hp dir.length (List.mem_range.mpr hlen)
  rcases Bool.or_eq_true_iff.mp h2 with h3 | h3
  · have h4 : dir.length = 0 := by simpa using h3
    exact hne (List.length_eq_zero.mp h4)
  · rw [htake] at h3
    exact hndir (by simpa [List.contains, List.elem_iff] using h3)

theorem prepare_workspace_clean (fs : FS) (home pb : String)
    (hwf : fs_wf fs = true) :
    path_exists (prepare_workspace fs home pb).1 (build_dir home pb) = true ∧
    dir_contents (prepare_workspace fs home pb).1 (build_dir home pb) = [] := by
  unfold prepare_workspace
  by_cases hex : path_exists fs (build_dir home pb) = true
  · simp only [hex, if_true]
    exact ⟨path_exists_iff.mpr (mem_create_dir_all _ _),
      dir_contents_remove_create fs _⟩
  · simp only [hex, if_false, Bool.false_eq_true]
    refine ⟨path_exists_iff.mpr (mem_create_dir_all _ _),
      dir_contents_create _ _ ?_⟩
    exact no_strictly_under_of_wf fs _ hwf
      (fun hmem => hex (path_exists_iff.mpr hmem)) (by simp [build_dir])

theorem prepare_workspace_clean_of_mem (fs : FS) (home pb : String)
    (hex : build_dir home pb ∈ fs) :
    path_exists (prepare_workspace fs home pb).1 (build_dir home pb) = true ∧
    dir_contents (prepare_workspace fs home pb).1 (build_dir home pb) = [] := by
  unfold prepare_workspace
  simp only [path_exists_iff.mpr hex, if_true]
  exact ⟨path_exists_iff.mpr (mem_create_dir_all _ _),
    dir_contents_remove_create fs _⟩

theorem append_length_ne {a b : String} (x : String)
    (hab : a.length ≠ b.length) : a ++ x ≠ b ++ x := by
  intro h
  have h2 := congrArg String.length h
  simp only [String.length_append] at h2
  omega

/-! ### Claim theorems -/

/-- Claim C2 as stated is false on the code: for query `"foo"`, the
candidate `"x.foo"` contains `"foo"` as a token delimited by the
non-alphanumeric boundary `'.'` (so the spec's rule keeps it), yet
`search_packages` drops it, because the code only splits on `'-'` and on
`'_'`. -/
theorem C2_counterexample :
    spec_keep_candidate "foo" ⟨"x.foo", "x.foo", none⟩ = true ∧
    search_packages "foo" ⟨[⟨"x.foo", "x.foo", none⟩]⟩ = [] := by decide

/-- Claim C2, amended: a candidate is kept iff its lower-cased name
starts with the lower-cased query, or the lower-cased query is a whole
fragment of the name split on `'-'` alone, or of the name split on `'_'`
alone; other non-alphanumeric delimiters do not count (exact equality is
subsumed by the starts-with rule). -/
theorem C2_amended (q : String) (resp : AurResponse) (pkg : AurPackage) :
    pkg ∈ search_packages q resp ↔
      pkg ∈ resp.results ∧
        (starts_with (to_lower pkg.name) (to_lower q) = true ∨
         to_lower q ∈ split_char '-' (to_lower pkg.name) ∨
         to_lower q ∈ split_char '_' (to_lower pkg.name)) := by
  simp only [search_packages, keep_candidate, List.mem_filter,
    Bool.or_eq_true, List.any_eq_true, beq_iff_eq, exists_eq_right]
  tauto

/-- Claim C3 (confirmed): the relaxed retry is invoked iff the primary
`makepkg` attempt did not succeed, it never follows a successful primary
attempt, it runs at most once per job, and the invocation trace is
always the primary attempt alone or the primary followed by exactly one
relaxed attempt. -/
theorem C3_retry_iff (primary relaxed : CmdResult) :
    (BuildCmd.relaxedBuild ∈ (run_build primary relaxed).2 ↔
      primary ≠ .exited true) ∧
    (run_build primary relaxed).2.count .relaxedBuild ≤ 1 ∧
    ((run_build primary relaxed).2 = [.primaryBuild] ∨
     (run_build primary relaxed).2 = [.primaryBuild, .relaxedBuild]) ∧
    (primary = .exited true → (run_build primary relaxed).2 = [.primaryBuild]) := by
  rcases primary with _ | (_ | _) <;> rcases relaxed with _ | (_ | _) <;> decide

/-- Claim C3, non-vacuity: a successful primary attempt yields a trace
with no relaxed retry. -/
theorem C3_witness :
    (run_build (.exited true) (.exited true)).2 = [.primaryBuild] :=
  (C3_retry_iff (.exited true) (.exited true)).2.2.2 rfl

/-- Claim C5 (confirmed): `get_package_info` returns the first record of
a non-empty `results` array and `none` for an empty one; for
`results = [A, B]` it returns `A`, and never `B` when `B` differs from
`A`. -/
theorem C5_first_result (A : AurPackage) (l : List AurPackage) :
    get_package_info (.ok ⟨A :: l⟩) = .ok (some A) ∧
    get_package_info (.ok ⟨[]⟩) = .ok none ∧
    (∀ B : AurPackage, get_package_info (.ok ⟨[A, B]⟩) = .ok (some A)) ∧
    (∀ B : AurPackage, A ≠ B →
      get_package_info (.ok ⟨[A, B]⟩) ≠ .ok (some B)) := by
  refine ⟨rfl, rfl, fun B => rfl, fun B hAB h => hAB ?_⟩
  simpa [get_package_info, Except.map] using h

/-- Claim C5, non-vacuity: with two distinct concrete records the first
is returned and the second is not. -/
theorem C5_witness :
    (⟨"a", "a", none⟩ : AurPackage) ≠ ⟨"b", "b", none⟩ ∧
    get_package_info (.ok ⟨[⟨"a", "a", none⟩, ⟨"b", "b", none⟩]⟩) ≠
      .ok (some ⟨"b", "b", none⟩) :=
  ⟨by decide, (C5_first_result ⟨"a", "a", none⟩ []).2.2.2 ⟨"b", "b", none⟩
    (by decide)⟩

/-- Claim C6 (confirmed): the suggestion display shows at most
`suggestion_cap = 5` entries (a constant between 5 and 8), the shown
entries are an initial segment of the input (so input order is
preserved), and an input shorter than the cap is shown unchanged. -/
theorem C6_cap_and_order (l : List AurPackage) :
    (suggest_display l).length ≤ suggestion_cap ∧
    5 ≤ suggestion_cap ∧ suggestion_cap ≤ 8 ∧
    suggest_display l ++ l.drop suggestion_cap = l ∧
    (l.length < suggestion_cap → suggest_display l = l) := by
  refine ⟨?_, by decide, by decide, List.take_append_drop _ _, fun h => ?_⟩
  · simp only [suggest_display, List.length_take]
    omega
  · exact List.take_of_length_le (Nat.le_of_lt h)

/-- Claim C6, non-vacuity: a two-element list is shorter than the cap
and is displayed unchanged. -/
theorem C6_witness :
    ([⟨"a", "a", none⟩, ⟨"b", "b", none⟩] : List AurPackage).length <
      suggestion_cap ∧
    suggest_display [⟨"a", "a", none⟩, ⟨"b", "b", none⟩] =
      [⟨"a", "a", none⟩, ⟨"b", "b", none⟩] :=
  ⟨by decide, (C6_cap_and_order _).2.2.2.2 (by decide)⟩

/-- Claim C4 (confirmed): on a well-formed filesystem, preparing the
workspace yields an existing, empty build directory, and preparing again
— after arbitrary further paths were created — again yields an existing,
empty build directory: any existing directory at the derived path is
removed recursively before the empty one is created. -/
theorem C4_prepare_idempotent (fs extra : FS) (home pb : String)
    (hwf : fs_wf fs = true) :
    path_exists (prepare_workspace fs home pb).1 (build_dir home pb) = true ∧
    dir_contents (prepare_workspace fs home pb).1 (build_dir home pb) = [] ∧
    path_exists (prepare_workspace (extra ++ (prepare_workspace fs home pb).1)
      home pb).1 (build_dir home pb) = true ∧
    dir_contents (prepare_workspace (extra ++ (prepare_workspace fs home pb).1)
      home pb).1 (build_dir home pb) = [] := by
  obtain ⟨h1, h2⟩ := prepare_workspace_clean fs home pb hwf
  have hmem : build_dir home pb ∈ extra ++ (prepare_workspace fs home pb).1 :=
    List.mem_append.mpr (Or.inr (path_exists_iff.mp h1))
  obtain ⟨h3, h4⟩ := prepare_workspace_clean_of_mem _ home pb hmem
  exact ⟨h1, h2, h3, h4⟩

/-- Claim C4, non-vacuity: a concrete well-formed filesystem holding a
stale build directory with a leftover file, re-prepared with a file
written into the fresh workspace in between. -/
theorem C4_witness :
    fs_wf [["h"], ["h", "aur-builds"], ["h", "aur-builds", "pb"],
      ["h", "aur-builds", "pb", "stale"]] = true ∧
    dir_contents (prepare_workspace ([[ "h", "aur-builds", "pb", "new"]] ++
      (prepare_workspace [["h"], ["h", "aur-builds"], ["h", "aur-builds", "pb"],
        ["h", "aur-builds", "pb", "stale"]] "h" "pb").1) "h" "pb").1
      (build_dir "h" "pb") = [] :=
  ⟨by decide,
    (C4_prepare_idempotent [["h"], ["h", "aur-builds"], ["h", "aur-builds", "pb"],
      ["h", "aur-builds", "pb", "stale"]] [[ "h", "aur-builds", "pb", "new"]]
      "h" "pb" (by decide)).2.2.2⟩

/-- Claim C7 (confirmed): when the primary build attempt fails and the
relaxed attempt succeeds, exactly two `makepkg` invocations occur, the
printed report is the "with PGP check skip" success message, and that
message differs from the clean-success message. -/
theorem C7_relaxed_success (w : InstallWorld) (arg h : String)
    (pkg : AurPackage) (rest : List AurPackage)
    (hinfo : w.info = .ok ⟨pkg :: rest⟩) (hhome : w.home = some h)
    (hclone : w.cloneRes = .exited true)
    (hprim : w.primaryRes ≠ .exited true)
    (hrel : w.relaxedRes = .exited true) :
    run_build w.primaryRes w.relaxedRes =
      (.relaxedSuccess, [.primaryBuild, .relaxedBuild]) ∧
    (run_build w.primaryRes w.relaxedRes).2.length = 2 ∧
    (install_package arg w).msgs =
      ["Installing: " ++ pkg.name] ++
      (prepare_workspace w.fs h pkg.package_base).2 ++
      ["First attempt failed, trying with PGP check skip...",
       "Successfully installed with PGP check skip: " ++ pkg.name] ∧
    success_report .relaxedSuccess pkg.name ≠
      success_report .cleanSuccess pkg.name := by
  have hrb : run_build w.primaryRes w.relaxedRes =
      (.relaxedSuccess, [.primaryBuild, .relaxedBuild]) := by
    cases hp : w.primaryRes with
    | launchErr => simp [run_build, hrel]
    | exited b =>
      cases b
      · simp [run_build, hrel]
      · exact absurd hp hprim
  refine ⟨hrb, by rw [hrb]; rfl, ?_, ?_⟩
  · simp [install_package, hinfo, hhome, hclone, hrb]
  · simp only [success_report, ne_eq, Option.some.injEq]
    exact append_length_ne pkg.name (by decide)

/-- Claim C7, non-vacuity: a concrete world whose primary build exits
non-zero and whose relaxed build succeeds. -/
theorem C7_witness :
    (install_package "p" ⟨.ok ⟨[⟨"p", "p", none⟩]⟩, .ok ⟨[]⟩, some "h", [],
      .exited true, .exited false, .exited true⟩).msgs =
      ["Installing: p"] ++
      (prepare_workspace [] "h" "p").2 ++
      ["First attempt failed, trying with PGP check skip...",
       "Successfully installed with PGP check skip: p"] :=
  (C7_relaxed_success ⟨.ok ⟨[⟨"p", "p", none⟩]⟩, .ok ⟨[]⟩, some "h", [],
      .exited true, .exited false, .exited true⟩ "p" "h" ⟨"p", "p", none⟩ []
      rfl rfl rfl (by decide) rfl).2.2.1

/-- Claim C9 (confirmed): when the home directory cannot be determined,
a successful resolution leads to a panic (`unwrap` on `None`), not to an
error of the propagated-error taxonomy. -/
theorem C9_home_panic (w : InstallWorld) (arg : String) (pkg : AurPackage)
    (rest : List AurPackage) (hinfo : w.info = .ok ⟨pkg :: rest⟩)
    (hhome : w.home = none) :
    (install_package arg w).halt = some .panicked ∧
    ∀ e : RunError, (install_package arg w).halt ≠ some (.err e) := by
  simp [install_package, hinfo, hhome]

/-- Claim C9, non-vacuity: a concrete resolvable package with no home
directory panics. -/
theorem C9_witness :
    (install_package "p" ⟨.ok ⟨[⟨"p", "p", none⟩]⟩, .ok ⟨[]⟩, none, [],
      .exited true, .exited true, .exited true⟩).halt = some .panicked :=
  (C9_home_panic ⟨.ok ⟨[⟨"p", "p", none⟩]⟩, .ok ⟨[]⟩, none, [],
      .exited true, .exited true, .exited true⟩ "p" ⟨"p", "p", none⟩ []
      rfl rfl).1

/-- Claim C8 (confirmed): for a successful resolution the filesystem
effect of `install_package` is workspace preparation at the path derived
from the resolver-returned `package_base` under the fixed
`home/aur-builds` root; it is the same for any two user-supplied
package-name arguments, which never enter the path computation. -/
theorem C8_path_from_base (w : InstallWorld) (arg1 arg2 : String)
    (pkg : AurPackage) (rest : List AurPackage) (h : String)
    (hinfo : w.info = .ok ⟨pkg :: rest⟩) (hhome : w.home = some h) :
    (install_package arg1 w).fs = (install_package arg2 w).fs ∧
    (install_package arg1 w).fs =
      (prepare_workspace w.fs h pkg.package_base).1 ∧
    build_dir h pkg.package_base = [h, "aur-builds", pkg.package_base] := by
  have hfs : ∀ a : String,
      (install_package a w).fs =
        (prepare_workspace w.fs h pkg.package_base).1 := by
    intro a
    rcases hcl : w.cloneRes with _ | (_ | _) <;>
      rcases hp : w.primaryRes with _ | (_ | _) <;>
        rcases hr : w.relaxedRes with _ | (_ | _) <;>
          simp [install_package, hinfo, hhome, hcl, run_build, hp, hr]
  exact ⟨(hfs arg1).trans (hfs arg2).symm, hfs arg1, rfl⟩

/-- Claim C8, non-vacuity: two different user arguments produce the same
filesystem effect for a concrete world. -/
theorem C8_witness :
    (install_package "argA" ⟨.ok ⟨[⟨"p", "base", none⟩]⟩, .ok ⟨[]⟩, some "h",
      [], .exited true, .exited true, .exited true⟩).fs =
    (install_package "argB" ⟨.ok ⟨[⟨"p", "base", none⟩]⟩, .ok ⟨[]⟩, some "h",
      [], .exited true, .exited true, .exited true⟩).fs :=
  (C8_path_from_base ⟨.ok ⟨[⟨"p", "base", none⟩]⟩, .ok ⟨[]⟩, some "h",
      [], .exited true, .exited true, .exited true⟩ "argA" "argB"
      ⟨"p", "base", none⟩ [] "h" rfl rfl).1

/-- Claim C10 (confirmed): a failure to launch the build tool on the
primary attempt is handled exactly like a non-zero exit — it triggers
the relaxed retry — while a launch failure on the relaxed attempt
propagates as a spawn error (`?`), with no terminal build-failure
report printed, an outcome distinct from `relaxedFailure`. -/
theorem C10_launch_asymmetry (r : CmdResult) (w : InstallWorld)
    (arg h : String) (pkg : AurPackage) (rest : List AurPackage)
    (hinfo : w.info = .ok ⟨pkg :: rest⟩) (hhome : w.home = some h)
    (hclone : w.cloneRes = .exited true)
    (hprim : w.primaryRes ≠ .exited true)
    (hrel : w.relaxedRes = .launchErr) :
    run_build .launchErr r = run_build (.exited false) r ∧
    (run_build .launchErr r).2 = [.primaryBuild, .relaxedBuild] ∧
    (install_package arg w).halt = some (.err .spawn) ∧
    (install_package arg w).msgs =
      ["Installing: " ++ pkg.name] ++
      (prepare_workspace w.fs h pkg.package_base).2 ++
      ["First attempt failed, trying with PGP check skip..."] ∧
    BuildOutcome.invocationError ≠ BuildOutcome.relaxedFailure := by
  have hrb : run_build w.primaryRes w.relaxedRes =
      (.invocationError, [.primaryBuild, .relaxedBuild]) := by
    cases hp : w.primaryRes with
    | launchErr => simp [run_build, hrel]
    | exited b =>
      cases b
      · simp [run_build, hrel]
      · exact absurd hp hprim
  refine ⟨?_, ?_, ?_, ?_, by decide⟩
  · rcases r with _ | (_ | _) <;> rfl
  · rcases r with _ | (_ | _) <;> rfl
  · simp [install_package, hinfo, hhome, hclone, hrb]
  · simp [install_package, hinfo, hhome, hclone, hrb]

/-- Claim C10, non-vacuity: a concrete world whose primary build exits
non-zero and whose relaxed attempt cannot be launched ends in the
propagated spawn error. -/
theorem C10_witness :
    (install_package "p" ⟨.ok ⟨[⟨"p", "p", none⟩]⟩, .ok ⟨[]⟩, some "h", [],
      .exited true, .exited false, .launchErr⟩).halt = some (.err .spawn) :=
  (C10_launch_asymmetry (.exited true) ⟨.ok ⟨[⟨"p", "p", none⟩]⟩, .ok ⟨[]⟩,
      some "h", [], .exited true, .exited false, .launchErr⟩ "p" "h"
      ⟨"p", "p", none⟩ [] rfl rfl rfl (by decide) rfl).2.2.1

/-- Claim C1 as stated is false on the code: a non-zero `git clone` exit
is a terminal error that is reported, yet `install_package` returns
`Ok(())`, so the process exits with status zero rather than non-zero. -/
theorem C1_counterexample :
    "Failed to clone repository" ∈ (install_package "p"
      ⟨.ok ⟨[⟨"p", "p", none⟩]⟩, .ok ⟨[]⟩, some "h", [],
       .exited false, .exited true, .exited true⟩).msgs ∧
    exit_code (install_package "p"
      ⟨.ok ⟨[⟨"p", "p", none⟩]⟩, .ok ⟨[]⟩, some "h", [],
       .exited false, .exited true, .exited true⟩).halt = 0 := by decide

/-- Claim C1, amended: every terminal error is reported to the user, but
only network and decode failures make the process exit non-zero (as
propagated errors); clone failures, relaxed-build failures and
package-manager removal failures are reported and the process exits
zero. -/
theorem C1_amended :
    (∀ (w : InstallWorld) (arg : String) (e : FetchError),
      w.info = .error e →
      (install_package arg w).halt = some (.err (RunError.ofFetch e)) ∧
      exit_code (install_package arg w).halt ≠ 0) ∧
    (∀ (w : InstallWorld) (arg h : String) (pkg : AurPackage)
        (rest : List AurPackage), w.info = .ok ⟨pkg :: rest⟩ →
      w.home = some h → w.cloneRes = .exited false →
      "Failed to clone repository" ∈ (install_package arg w).msgs ∧
      exit_code (install_package arg w).halt = 0) ∧
    (∀ (w : InstallWorld) (arg h : String) (pkg : AurPackage)
        (rest : List AurPackage), w.info = .ok ⟨pkg :: rest⟩ →
      w.home = some h → w.cloneRes = .exited true →
      w.primaryRes ≠ .exited true → w.relaxedRes = .exited false →
      "Failed to build and install package" ∈ (install_package arg w).msgs ∧
      exit_code (install_package arg w).halt = 0) ∧
    (∀ (pkgName : String) (fs : FS),
      "Failed to remove package" ∈
        (remove_package pkgName fs (.exited false)).msgs ∧
      exit_code (remove_package pkgName fs (.exited false)).halt = 0) := by
  refine ⟨?_, ?_, ?_, ?_⟩
  · intro w arg e hinfo
    cases e <;> simp [install_package, hinfo, exit_code, RunError.ofFetch]
  · intro w arg h pkg rest hinfo hhome hclone
    simp [install_package, hinfo, hhome, hclone, exit_code]
  · intro w arg h pkg rest hinfo hhome hclone hprim hrel
    have hrb : run_build w.primaryRes w.relaxedRes =
        (.relaxedFailure, [.primaryBuild, .relaxedBuild]) := by
      cases hp : w.primaryRes with
      | launchErr => simp [run_build, hrel]
      | exited b =>
        cases b
        · simp [run_build, hrel]
        · exact absurd hp hprim
    simp [install_package, hinfo, hhome, hclone, hrb, exit_code,
      relaxed_failure_report]
  · intro pkgName fs
    simp [remove_package, exit_code]

/-- Claim C1, non-vacuity: a concrete world where both build attempts
exit non-zero is reported as a build failure and exits zero. -/
theorem C1_witness :
    "Failed to build and install package" ∈ (install_package "p"
      ⟨.ok ⟨[⟨"p", "p", none⟩]⟩, .ok ⟨[]⟩, some "h", [],
       .exited true, .exited false, .exited false⟩).msgs ∧
    exit_code (install_package "p"
      ⟨.ok ⟨[⟨"p", "p", none⟩]⟩, .ok ⟨[]⟩, some "h", [],
       .exited true, .exited false, .exited false⟩).halt = 0 :=
  C1_amended.2.2.1 ⟨.ok ⟨[⟨"p", "p", none⟩]⟩, .ok ⟨[]⟩, some "h", [],
      .exited true, .exited false, .exited false⟩ "p" "h"
      ⟨"p", "p", none⟩ [] rfl rfl rfl (by decide) rfl

end VoidHelper
